import Mathlib

/-!
Verification development for the Renderer component of the ts-pbr-renderer
repository (src/graphics/Renderer.ts), shallowly embedded in Lean 4.

Matrix values are embedded from the gl-matrix library that the renderer calls
(mat4.multiply, mat4.invert, mat3.normalFromMat4), translated over the
rationals: the claims under study are algebraic statements about which values
are staged into uniform blocks and which GPU commands are issued, not
floating-point rounding statements.

gl-matrix stores matrices column major: field mIJ of Mat4 holds the element at
linear index 4*I+J of the Float32Array, that is column I, row J; likewise Mat3
with linear index 3*I+J.
-/

/-- 4x4 matrix in gl-matrix column-major field naming: mIJ is column I, row J. -/
@[ext]
structure Mat4 where
  m00 : ℚ
  m01 : ℚ
  m02 : ℚ
  m03 : ℚ
  m10 : ℚ
  m11 : ℚ
  m12 : ℚ
  m13 : ℚ
  m20 : ℚ
  m21 : ℚ
  m22 : ℚ
  m23 : ℚ
  m30 : ℚ
  m31 : ℚ
  m32 : ℚ
  m33 : ℚ
deriving DecidableEq

/-- 3x3 matrix in gl-matrix column-major field naming: mIJ is column I, row J. -/
@[ext]
structure Mat3 where
  m00 : ℚ
  m01 : ℚ
  m02 : ℚ
  m10 : ℚ
  m11 : ℚ
  m12 : ℚ
  m20 : ℚ
  m21 : ℚ
  m22 : ℚ
deriving DecidableEq

/-- The identity matrix, as produced by mat4.create() in gl-matrix. -/
def mat4Id : Mat4 :=
  { m00 := 1, m01 := 0, m02 := 0, m03 := 0
    m10 := 0, m11 := 1, m12 := 0, m13 := 0
    m20 := 0, m21 := 0, m22 := 1, m23 := 0
    m30 := 0, m31 := 0, m32 := 0, m33 := 1 }

/-- The 3x3 identity matrix. -/
def mat3Id : Mat3 :=
  { m00 := 1, m01 := 0, m02 := 0
    m10 := 0, m11 := 1, m12 := 0
    m20 := 0, m21 := 0, m22 := 1 }

/-- gl-matrix mat4.multiply(out, a, b): with column vectors this is the
matrix product a * b. -/
def mat4Mul (a b : Mat4) : Mat4 :=
  { m00 := b.m00 * a.m00 + b.m01 * a.m10 + b.m02 * a.m20 + b.m03 * a.m30
    m01 := b.m00 * a.m01 + b.m01 * a.m11 + b.m02 * a.m21 + b.m03 * a.m31
    m02 := b.m00 * a.m02 + b.m01 * a.m12 + b.m02 * a.m22 + b.m03 * a.m32
    m03 := b.m00 * a.m03 + b.m01 * a.m13 + b.m02 * a.m23 + b.m03 * a.m33
    m10 := b.m10 * a.m00 + b.m11 * a.m10 + b.m12 * a.m20 + b.m13 * a.m30
    m11 := b.m10 * a.m01 + b.m11 * a.m11 + b.m12 * a.m21 + b.m13 * a.m31
    m12 := b.m10 * a.m02 + b.m11 * a.m12 + b.m12 * a.m22 + b.m13 * a.m32
    m13 := b.m10 * a.m03 + b.m11 * a.m13 + b.m12 * a.m23 + b.m13 * a.m33
    m20 := b.m20 * a.m00 + b.m21 * a.m10 + b.m22 * a.m20 + b.m23 * a.m30
    m21 := b.m20 * a.m01 + b.m21 * a.m11 + b.m22 * a.m21 + b.m23 * a.m31
    m22 := b.m20 * a.m02 + b.m21 * a.m12 + b.m22 * a.m22 + b.m23 * a.m32
    m23 := b.m20 * a.m03 + b.m21 * a.m13 + b.m22 * a.m23 + b.m23 * a.m33
    m30 := b.m30 * a.m00 + b.m31 * a.m10 + b.m32 * a.m20 + b.m33 * a.m30
    m31 := b.m30 * a.m01 + b.m31 * a.m11 + b.m32 * a.m21 + b.m33 * a.m31
    m32 := b.m30 * a.m02 + b.m31 * a.m12 + b.m32 * a.m22 + b.m33 * a.m32
    m33 := b.m30 * a.m03 + b.m31 * a.m13 + b.m32 * a.m23 + b.m33 * a.m33 }

/-- The determinant as computed inside gl-matrix mat4.invert and
mat3.normalFromMat4 (cofactor pairs b00..b11). -/
def mat4Det (a : Mat4) : ℚ :=
  let b00 := a.m00 * a.m11 - a.m01 * a.m10
  let b01 := a.m00 * a.m12 - a.m02 * a.m10
  let b02 := a.m00 * a.m13 - a.m03 * a.m10
  let b03 := a.m01 * a.m12 - a.m02 * a.m11
  let b04 := a.m01 * a.m13 - a.m03 * a.m11
  let b05 := a.m02 * a.m13 - a.m03 * a.m12
  let b06 := a.m20 * a.m31 - a.m21 * a.m30
  let b07 := a.m20 * a.m32 - a.m22 * a.m30
  let b08 := a.m20 * a.m33 - a.m23 * a.m30
  let b09 := a.m21 * a.m32 - a.m22 * a.m31
  let b10 := a.m21 * a.m33 - a.m23 * a.m31
  let b11 := a.m22 * a.m33 - a.m23 * a.m32
  b00 * b11 - b01 * b10 + b02 * b09 + b03 * b08 - b04 * b07 + b05 * b06

/-- gl-matrix mat4.invert(out, a): returns null (None) when the determinant
is zero, otherwise the inverse. -/
def mat4Invert (a : Mat4) : Option Mat4 :=
  if mat4Det a = 0 then none else
  let b00 := a.m00 * a.m11 - a.m01 * a.m10
  let b01 := a.m00 * a.m12 - a.m02 * a.m10
  let b02 := a.m00 * a.m13 - a.m03 * a.m10
  let b03 := a.m01 * a.m12 - a.m02 * a.m11
  let b04 := a.m01 * a.m13 - a.m03 * a.m11
  let b05 := a.m02 * a.m13 - a.m03 * a.m12
  let b06 := a.m20 * a.m31 - a.m21 * a.m30
  let b07 := a.m20 * a.m32 - a.m22 * a.m30
  let b08 := a.m20 * a.m33 - a.m23 * a.m30
  let b09 := a.m21 * a.m32 - a.m22 * a.m31
  let b10 := a.m21 * a.m33 - a.m23 * a.m31
  let b11 := a.m22 * a.m33 - a.m23 * a.m32
  let d := 1 / mat4Det a
  some
  { m00 := (a.m11 * b11 - a.m12 * b10 + a.m13 * b09) * d
    m01 := (a.m02 * b10 - a.m01 * b11 - a.m03 * b09) * d
    m02 := (a.m31 * b05 - a.m32 * b04 + a.m33 * b03) * d
    m03 := (a.m22 * b04 - a.m21 * b05 - a.m23 * b03) * d
    m10 := (a.m12 * b08 - a.m10 * b11 - a.m13 * b07) * d
    m11 := (a.m00 * b11 - a.m02 * b08 + a.m03 * b07) * d
    m12 := (a.m32 * b02 - a.m30 * b05 - a.m33 * b01) * d
    m13 := (a.m20 * b05 - a.m22 * b02 + a.m23 * b01) * d
    m20 := (a.m10 * b10 - a.m11 * b08 + a.m13 * b06) * d
    m21 := (a.m01 * b08 - a.m00 * b10 - a.m03 * b06) * d
    m22 := (a.m30 * b04 - a.m31 * b02 + a.m33 * b00) * d
    m23 := (a.m21 * b02 - a.m20 * b04 - a.m23 * b00) * d
    m30 := (a.m11 * b07 - a.m10 * b09 - a.m12 * b06) * d
    m31 := (a.m00 * b09 - a.m01 * b07 + a.m02 * b06) * d
    m32 := (a.m31 * b01 - a.m30 * b03 - a.m32 * b00) * d
    m33 := (a.m20 * b03 - a.m21 * b01 + a.m22 * b00) * d }

/-- gl-matrix mat3.normalFromMat4(out, a): the upper-left 3x3 of the
transpose of the inverse of the 4x4 matrix a; null (None) when the
determinant is zero. -/
def mat3NormalFromMat4 (a : Mat4) : Option Mat3 :=
  if mat4Det a = 0 then none else
  let b00 := a.m00 * a.m11 - a.m01 * a.m10
  let b01 := a.m00 * a.m12 - a.m02 * a.m10
  let b02 := a.m00 * a.m13 - a.m03 * a.m10
  let b03 := a.m01 * a.m12 - a.m02 * a.m11
  let b04 := a.m01 * a.m13 - a.m03 * a.m11
  let b05 := a.m02 * a.m13 - a.m03 * a.m12
  let b06 := a.m20 * a.m31 - a.m21 * a.m30
  let b07 := a.m20 * a.m32 - a.m22 * a.m30
  let b08 := a.m20 * a.m33 - a.m23 * a.m30
  let b09 := a.m21 * a.m32 - a.m22 * a.m31
  let b10 := a.m21 * a.m33 - a.m23 * a.m31
  let b11 := a.m22 * a.m33 - a.m23 * a.m32
  let d := 1 / mat4Det a
  some
  { m00 := (a.m11 * b11 - a.m12 * b10 + a.m13 * b09) * d
    m01 := (a.m12 * b08 - a.m10 * b11 - a.m13 * b07) * d
    m02 := (a.m10 * b10 - a.m11 * b08 + a.m13 * b06) * d
    m10 := (a.m02 * b10 - a.m01 * b11 - a.m03 * b09) * d
    m11 := (a.m00 * b11 - a.m02 * b08 + a.m03 * b07) * d
    m12 := (a.m01 * b08 - a.m00 * b10 - a.m03 * b06) * d
    m20 := (a.m31 * b05 - a.m32 * b04 + a.m33 * b03) * d
    m21 := (a.m32 * b02 - a.m30 * b05 - a.m33 * b01) * d
    m22 := (a.m30 * b04 - a.m31 * b02 + a.m33 * b00) * d }

/-- The 3x3 matrix formed by transposing the upper-left 3x3 block of a 4x4
matrix (with column-major storage, entry IJ of the result is entry JI of b). -/
def mat3OfMat4TransposedUpper (b : Mat4) : Mat3 :=
  { m00 := b.m00, m01 := b.m10, m02 := b.m20
    m10 := b.m01, m11 := b.m11, m12 := b.m21
    m20 := b.m02, m21 := b.m12, m22 := b.m22 }

/-! ## Renderer data model

Collaborator objects (vertex/index buffers, materials, shaders, textures) are
opaque GPU handles in the source; they are modelled by identities, and the
JavaScript reference (in)equality tests of Renderer.ts become equality tests
on those identities.  Effects on the WebGL context are recorded as a trace of
commands. -/

/-- A vertex buffer handle (src/graphics/VertexBuffer.ts collaborator). -/
structure VertexBuffer where
  id : Nat
deriving DecidableEq

/-- An index buffer handle; indices.BYTES_PER_ELEMENT is the element size of
its typed array (src/graphics/IndexBuffer.ts collaborator). -/
structure IndexBuffer where
  id : Nat
  bytesPerElement : Nat
deriving DecidableEq

/-- A material descriptor: an identity plus the shader program it references
(src/materials/Material.ts collaborator). -/
structure Material where
  id : Nat
  shader : Nat
deriving DecidableEq

/-- A value staged into a uniform buffer block.  The null case models the
result of the non-null assertion mat4.invert(temp, view)! when the view
matrix is singular. -/
inductive Value where
  | m4 : Mat4 → Value
  | m3 : Mat3 → Value
  | null : Value
deriving DecidableEq

/-- Modelled from the spec: the uniform-buffer block of UniformBuffer.ts
(not under src/) is a store of named values; UniformBuffer.set stages a
value under a name (copying it into the block) and UniformBuffer.update
uploads the block to the GPU once.  The store is a lookup function. -/
def UBO : Type := String → Option Value

/-- UniformBuffer.set: stage a value under a name. -/
def UBO.set (u : UBO) (k : String) (v : Value) : UBO :=
  fun q => if q = k then some v else u q

/-- Read a staged value back out of the block. -/
def UBO.get (u : UBO) (k : String) : Option Value := u k

/-- The block with nothing staged. -/
def UBO.empty : UBO := fun _ => none

/-- gl.UNSIGNED_SHORT. -/
def glUnsignedShort : ℚ := 5123

/-- gl.UNSIGNED_INT. -/
def glUnsignedInt : ℚ := 5125

/-- One command issued to the WebGL context or to a collaborator object. -/
inductive GLCmd where
  | useProgram : Nat → GLCmd
  | activateMaterial : Nat → GLCmd
  | bindVertexBuffers : Nat → GLCmd
  | bindIndexBuffer : Nat → GLCmd
  | drawElementsCmd : ℚ → ℚ → ℚ → ℚ → GLCmd
  | drawArraysCmd : ℚ → ℚ → ℚ → GLCmd
  | viewportCmd : ℚ → ℚ → ℚ → ℚ → GLCmd
  | uploadPerFrame : GLCmd
  | uploadPerModel : GLCmd
deriving DecidableEq

/-- Modelled from the spec: RendererStats.ts is not under src/; Renderer.ts
uses exactly these counters and RendererStats.reset() zeroes them. -/
structure RendererStats where
  shader_bind_count : ℚ
  material_bind_count : ℚ
  vertex_buffer_bind_count : ℚ
  index_buffer_bind_count : ℚ
  index_draw_count : ℚ
  vertex_draw_count : ℚ
  draw_calls : ℚ
deriving DecidableEq

/-- RendererStats.reset(): every counter back to zero. -/
def RendererStats.zero : RendererStats :=
  { shader_bind_count := 0, material_bind_count := 0
    vertex_buffer_bind_count := 0, index_buffer_bind_count := 0
    index_draw_count := 0, vertex_draw_count := 0, draw_calls := 0 }

/-- ViewportDimensions of Renderer.ts. -/
structure ViewportDimensions where
  x : ℚ
  y : ℚ
  width : ℚ
  height : ℚ
deriving DecidableEq

/-- The mutable per-instance state of class Renderer. -/
structure RendererState where
  current_vertex_buffer : Option VertexBuffer
  current_index_buffer : Option IndexBuffer
  current_material : Option Material
  current_shader : Option Nat
  stats : RendererStats
  viewport : ViewportDimensions
  uboPerFrameBlock : UBO
  uboPerModelBlock : UBO

/-- Renderer state as the constructor leaves the tracked fields: no bindings
cached, fresh stats, zero viewport, empty uniform blocks. -/
def initialState : RendererState :=
  { current_vertex_buffer := none, current_index_buffer := none
    current_material := none, current_shader := none
    stats := RendererStats.zero
    viewport := { x := 0, y := 0, width := 0, height := 0 }
    uboPerFrameBlock := UBO.empty, uboPerModelBlock := UBO.empty }

namespace Renderer

/-- Renderer.resetStats(). -/
def resetStats (s : RendererState) : RendererState :=
  { s with stats := RendererStats.zero, current_shader := none, current_material := none }

/-- Renderer.resetSaveBindings(). -/
def resetSaveBindings (s : RendererState) : RendererState :=
  { s with current_vertex_buffer := none, current_index_buffer := none
           current_material := none, current_shader := none }

/-- Renderer.setViewport(x, y, width, height). -/
def setViewport (s : RendererState) (x y width height : ℚ) :
    RendererState × List GLCmd :=
  ({ s with viewport := { x := x, y := y, width := width, height := height } },
   [GLCmd.viewportCmd x y width height])

/-- Renderer.resetViewport(). -/
def resetViewport (s : RendererState) : RendererState × List GLCmd :=
  (s, [GLCmd.viewportCmd s.viewport.x s.viewport.y s.viewport.width s.viewport.height])

/-- Renderer.setPerFrameUniforms(view, proj): stage view, view_inverse,
projection and view_projection, upload the per-frame block once, then
resetStats. -/
def setPerFrameUniforms (s : RendererState) (view proj : Mat4) :
    RendererState × List GLCmd :=
  let u := s.uboPerFrameBlock.set "view" (Value.m4 view)
  let u := u.set "view_inverse"
    (match mat4Invert view with
     | some b => Value.m4 b
     | none => Value.null)
  let u := u.set "projection" (Value.m4 proj)
  let u := u.set "view_projection" (Value.m4 (mat4Mul proj view))
  (resetStats { s with uboPerFrameBlock := u }, [GLCmd.uploadPerFrame])

/-- Renderer.setPerModelUniforms(model_matrix, view_matrix, proj_matrix).
Stages model and model_view, then either throws (error result, block not
uploaded) when mat3.normalFromMat4 returns null, or stages normal_view and
mvp and uploads the per-model block once. -/
def setPerModelUniforms (s : RendererState) (model_matrix view_matrix proj_matrix : Mat4) :
    RendererState × List GLCmd × Option String :=
  let u := s.uboPerModelBlock.set "model" (Value.m4 model_matrix)
  let mv := mat4Mul view_matrix model_matrix
  let u := u.set "model_view" (Value.m4 mv)
  match mat3NormalFromMat4 mv with
  | some n =>
      let u := u.set "normal_view" (Value.m3 n)
      let u := u.set "mvp" (Value.m4 (mat4Mul proj_matrix mv))
      ({ s with uboPerModelBlock := u }, [GLCmd.uploadPerModel], none)
  | none =>
      ({ s with uboPerModelBlock := u }, [],
       some "Determinant could not be calculated for normalview_matrix")

end Renderer

/-- Result of a call to Renderer.draw: the final state of the renderer, the
commands issued to the GL context, and the thrown error when the call did
not return normally.  JavaScript exceptions do not roll back mutations of
`this`, so the state reflects everything executed before the throw. -/
structure DrawResult where
  state : RendererState
  trace : List GLCmd
  error : Option String

namespace Renderer

/-- The four binding-cache checks at the top of Renderer.draw, in source
order: shader, material, vertex buffer, index buffer. -/
def drawBindPhase (s : RendererState) (index_buffer : Option IndexBuffer)
    (vertex_buffer : VertexBuffer) (mat : Option Material) :
    RendererState × List GLCmd :=
  let p1 : RendererState × List GLCmd :=
    match mat with
    | some m =>
        if some m.shader = s.current_shader then (s, [])
        else
          ({ s with current_shader := some m.shader
                    stats := { s.stats with
                               shader_bind_count := s.stats.shader_bind_count + 1 } },
           [GLCmd.useProgram m.shader])
    | none => (s, [])
  let p2 : RendererState × List GLCmd :=
    match mat with
    | some m =>
        if some m = p1.1.current_material then p1
        else
          ({ p1.1 with current_material := some m
                       stats := { p1.1.stats with
                                  material_bind_count := p1.1.stats.material_bind_count + 1 } },
           p1.2 ++ [GLCmd.activateMaterial m.id])
    | none => p1
  let p3 : RendererState × List GLCmd :=
    if some vertex_buffer = p2.1.current_vertex_buffer then p2
    else
      ({ p2.1 with current_vertex_buffer := some vertex_buffer
                   stats := { p2.1.stats with
                              vertex_buffer_bind_count := p2.1.stats.vertex_buffer_bind_count + 1 } },
       p2.2 ++ [GLCmd.bindVertexBuffers vertex_buffer.id])
  match index_buffer with
  | some b =>
      if some b = p3.1.current_index_buffer then p3
      else
        ({ p3.1 with current_index_buffer := some b
                     stats := { p3.1.stats with
                                index_buffer_bind_count := p3.1.stats.index_buffer_bind_count + 1 } },
         p3.2 ++ [GLCmd.bindIndexBuffer b.id])
  | none => p3

/-- Renderer.draw(draw_mode, count, offset, index_buffer, vertex_buffer, mat). -/
def draw (s : RendererState) (draw_mode count offset : ℚ)
    (index_buffer : Option IndexBuffer) (vertex_buffer : VertexBuffer)
    (mat : Option Material) : DrawResult :=
  let p := drawBindPhase s index_buffer vertex_buffer mat
  match index_buffer with
  | some b =>
      if b.bytesPerElement = 2 then
        { state :=
            { p.1 with stats :=
                { p.1.stats with
                  index_draw_count := p.1.stats.index_draw_count + count
                  draw_calls := p.1.stats.draw_calls + 1 } }
          trace := p.2 ++ [GLCmd.drawElementsCmd draw_mode count glUnsignedShort offset]
          error := none }
      else if b.bytesPerElement = 4 then
        { state :=
            { p.1 with stats :=
                { p.1.stats with
                  index_draw_count := p.1.stats.index_draw_count + count
                  draw_calls := p.1.stats.draw_calls + 1 } }
          trace := p.2 ++ [GLCmd.drawElementsCmd draw_mode count glUnsignedInt offset]
          error := none }
      else
        { state := p.1, trace := p.2, error := some "Unknown index buffer type" }
  | none =>
      { state :=
          { p.1 with stats :=
              { p.1.stats with
                vertex_draw_count := p.1.stats.vertex_draw_count + count
                draw_calls := p.1.stats.draw_calls + 1 } }
        trace := p.2 ++ [GLCmd.drawArraysCmd draw_mode offset count]
        error := none }

end Renderer

/-! ## Constructor model

The Renderer constructor walks ShaderSources (src/graphics/shader/
ShaderSources.ts), builds a Shader for each entry (through the entry's
subclass constructor when one is defined), creates the two default textures
and the two uniform buffer blocks, and binds the blocks to every shader.
Shader/texture/UniformBuffer construction itself happens in collaborator
classes; here a built shader is its constructor class plus the vertex and
fragment sources passed to it, and GPU-side effects are recorded as
constructor events. -/

/-- One entry of ShaderSources: name, vertex source, fragment source, and the
optional Shader subclass used to construct it. -/
structure ShaderSource where
  name : String
  vert : String
  frag : String
  subclass : Option String
deriving DecidableEq

/-- The ShaderSources array of ShaderSources.ts, in declaration order; the
vert/frag fields are the imported shader-source identifiers. -/
def ShaderSources : List ShaderSource :=
  [ { name := "BasicShader", vert := "standardVert", frag := "basicFrag"
      subclass := some "BasicShader" }
  , { name := "PBRShader", vert := "standardVert", frag := "pbrFrag"
      subclass := some "PBRShader" }
  , { name := "NormalOnlyShader", vert := "standardVert", frag := "normalOnlyFrag"
      subclass := none }
  , { name := "EquiToCubemapShader", vert := "standardVert", frag := "equiToCubemapFrag"
      subclass := some "EquiToCubemapShader" }
  , { name := "CubemapToIrradianceShader", vert := "standardVert", frag := "cubemapToIrradianceFrag"
      subclass := some "CubemapToIrradianceShader" }
  , { name := "CubemapSpecularPrefilter", vert := "standardVert", frag := "cubemapSpecularPrefilterFrag"
      subclass := some "CubemapSpecularPrefilterShader" }
  , { name := "GridShader", vert := "gridVert", frag := "gridFrag"
      subclass := none }
  , { name := "BRDFShader", vert := "brdfVert", frag := "brdfFrag"
      subclass := none } ]

/-- A shader as constructed by the Renderer constructor: the class whose
constructor was called (the base class Shader when no subclass is defined)
and the two source strings handed to it. -/
structure BuiltShader where
  cls : String
  vert : String
  frag : String
deriving DecidableEq

/-- new shader_source.subclass(gl, vert, frag) when subclass is defined,
new Shader(gl, vert, frag) otherwise. -/
def mkShader (src : ShaderSource) : BuiltShader :=
  match src.subclass with
  | some c => { cls := c, vert := src.vert, frag := src.frag }
  | none => { cls := "Shader", vert := src.vert, frag := src.frag }

/-- JavaScript Map.set: replace the value under an existing key, otherwise
append the pair (Maps preserve insertion order). -/
def mapSet (m : List (String × BuiltShader)) (k : String) (v : BuiltShader) :
    List (String × BuiltShader) :=
  if m.any (fun p => p.1 = k) then
    m.map (fun p => if p.1 = k then (k, v) else p)
  else m ++ [(k, v)]

/-- A GPU-side action of the Renderer constructor. -/
inductive CtorEvent where
  | createTexture2D : CtorEvent
  | createCubeTexture : CtorEvent
  | createUBO : String → CtorEvent
  | bindUBO : String → Nat → BuiltShader → CtorEvent
deriving DecidableEq

/-- What the Renderer constructor produced: the static shader map and the
constructor events in execution order. -/
structure CtorResult where
  shaders : List (String × BuiltShader)
  trace : List CtorEvent

namespace Renderer

/-- The Renderer constructor: default textures, the shader map built from
ShaderSources, the two uniform buffer blocks (created against the PBR
shader), and one bind of each block on every shader, at binding points
PerFrameBinding = 0 and PerModelBinding = 1. -/
def construct : CtorResult :=
  let shaders := ShaderSources.foldl (fun m src => mapSet m src.name (mkShader src)) []
  { shaders := shaders
    trace :=
      [CtorEvent.createTexture2D, CtorEvent.createCubeTexture]
        ++ [CtorEvent.createUBO "ubo_per_frame", CtorEvent.createUBO "ubo_per_model"]
        ++ shaders.flatMap (fun p =>
            [CtorEvent.bindUBO "ubo_per_frame" 0 p.2, CtorEvent.bindUBO "ubo_per_model" 1 p.2]) }

/-- Renderer.GetShader(name): lookup in the static shader map. -/
def GetShader (c : CtorResult) (name : String) : Option BuiltShader :=
  (c.shaders.find? (fun p => p.1 = name)).map Prod.snd

end Renderer

/-- True exactly for the two GPU draw commands (gl.drawElements,
gl.drawArrays). -/
def isDrawCmd : GLCmd → Bool
  | GLCmd.drawElementsCmd _ _ _ _ => true
  | GLCmd.drawArraysCmd _ _ _ => true
  | _ => false

/-- Concrete fixtures for the witnesses below. -/
def vb1 : VertexBuffer := { id := 1 }

/-- An index buffer with 16-bit indices. -/
def ib16 : IndexBuffer := { id := 2, bytesPerElement := 2 }

/-- An index buffer with 32-bit indices. -/
def ib32 : IndexBuffer := { id := 4, bytesPerElement := 4 }

/-- An index buffer with an element size that is neither 2 nor 4. -/
def ib8 : IndexBuffer := { id := 5, bytesPerElement := 1 }

/-- A material referencing shader program 7. -/
def mat1 : Material := { id := 3, shader := 7 }

/-- A renderer state in which vb1, ib16, mat1 and shader 7 are all already
bound. -/
def stateWithBindings : RendererState :=
  { initialState with
    current_shader := some 7
    current_material := some mat1
    current_vertex_buffer := some vb1
    current_index_buffer := some ib16 }

/-- The all-zero, hence singular, 4x4 matrix, used as a witness input. -/
def mat4Zero : Mat4 :=
  { m00 := 0, m01 := 0, m02 := 0, m03 := 0
    m10 := 0, m11 := 0, m12 := 0, m13 := 0
    m20 := 0, m21 := 0, m22 := 0, m23 := 0
    m30 := 0, m31 := 0, m32 := 0, m33 := 0 }

/-- Spec-side definition for the claim's reading of the normal matrix: the
upper-left 3x3 block of a 4x4 matrix (columns 0..2, rows 0..2). -/
def mat4Upper3 (a : Mat4) : Mat3 :=
  { m00 := a.m00, m01 := a.m01, m02 := a.m02
    m10 := a.m10, m11 := a.m11, m12 := a.m12
    m20 := a.m20, m21 := a.m21, m22 := a.m22 }

/-- Spec-side definition: 3x3 transpose. -/
def mat3Transpose (a : Mat3) : Mat3 :=
  { m00 := a.m00, m01 := a.m10, m02 := a.m20
    m10 := a.m01, m11 := a.m11, m12 := a.m21
    m20 := a.m02, m21 := a.m12, m22 := a.m22 }

/-- 3x3 determinant (expansion along the first row). -/
def mat3Det (a : Mat3) : ℚ :=
  a.m00 * (a.m11 * a.m22 - a.m21 * a.m12) -
    a.m10 * (a.m01 * a.m22 - a.m21 * a.m02) +
    a.m20 * (a.m01 * a.m12 - a.m11 * a.m02)

/-- 3x3 matrix product (column-major storage, math product a * b). -/
def mat3Mul (a b : Mat3) : Mat3 :=
  { m00 := b.m00 * a.m00 + b.m01 * a.m10 + b.m02 * a.m20
    m01 := b.m00 * a.m01 + b.m01 * a.m11 + b.m02 * a.m21
    m02 := b.m00 * a.m02 + b.m01 * a.m12 + b.m02 * a.m22
    m10 := b.m10 * a.m00 + b.m11 * a.m10 + b.m12 * a.m20
    m11 := b.m10 * a.m01 + b.m11 * a.m11 + b.m12 * a.m21
    m12 := b.m10 * a.m02 + b.m11 * a.m12 + b.m12 * a.m22
    m20 := b.m20 * a.m00 + b.m21 * a.m10 + b.m22 * a.m20
    m21 := b.m20 * a.m01 + b.m21 * a.m11 + b.m22 * a.m21
    m22 := b.m20 * a.m02 + b.m21 * a.m12 + b.m22 * a.m22 }

/-- Spec-side definition: the 3x3 inverse (adjugate over determinant),
None when the determinant is zero. -/
def mat3Inverse (a : Mat3) : Option Mat3 :=
  if mat3Det a = 0 then none else
  let d := 1 / mat3Det a
  some
  { m00 := (a.m11 * a.m22 - a.m21 * a.m12) * d
    m01 := (a.m21 * a.m02 - a.m01 * a.m22) * d
    m02 := (a.m01 * a.m12 - a.m11 * a.m02) * d
    m10 := (a.m20 * a.m12 - a.m10 * a.m22) * d
    m11 := (a.m00 * a.m22 - a.m20 * a.m02) * d
    m12 := (a.m10 * a.m02 - a.m00 * a.m12) * d
    m20 := (a.m10 * a.m21 - a.m20 * a.m11) * d
    m21 := (a.m20 * a.m01 - a.m00 * a.m21) * d
    m22 := (a.m00 * a.m11 - a.m10 * a.m01) * d }

/-- The literal reading of the claim's parenthetical: the inverse-transpose
of the upper 3x3 of a 4x4 matrix. -/
def normalMatrixClaimed (m : Mat4) : Option Mat3 :=
  (mat3Inverse (mat4Upper3 m)).map mat3Transpose

/-- The view matrix of the normal-matrix counterexample: invertible (its
gl-matrix determinant is 1), its upper 3x3 is the identity, but its bottom
row is (1, 0, 0, 2) rather than (0, 0, 0, 1). -/
def cexView : Mat4 :=
  { m00 := 1, m01 := 0, m02 := 0, m03 := 1
    m10 := 0, m11 := 1, m12 := 0, m13 := 0
    m20 := 0, m21 := 0, m22 := 1, m23 := 0
    m30 := 1, m31 := 0, m32 := 0, m33 := 2 }

/-! ## Theorems -/

theorem mat3NormalFromMat4_eq_invert (a : Mat4) :
    mat3NormalFromMat4 a = (mat4Invert a).map mat3OfMat4TransposedUpper := by
  by_cases h : mat4Det a = 0 <;>
    simp [mat3NormalFromMat4, mat4Invert, mat3OfMat4TransposedUpper, h]

theorem mat4Det_id : mat4Det mat4Id = 1 := by
  simp [mat4Det, mat4Id]

theorem mat4Det_mul (a b : Mat4) :
    mat4Det (mat4Mul a b) = mat4Det a * mat4Det b := by
  simp only [mat4Det, mat4Mul]
  ring

set_option maxHeartbeats 2000000 in
theorem mat4Invert_correct (a : Mat4) (hd : mat4Det a ≠ 0) :
    ∃ B, mat4Invert a = some B ∧ mat4Mul a B = mat4Id ∧ mat4Mul B a = mat4Id := by
  unfold mat4Invert
  rw [if_neg hd]
  refine ⟨_, rfl, ?_, ?_⟩ <;>
  · ext <;>
    · simp only [mat4Mul, mat4Id]
      field_simp
      simp only [mat4Det] at hd ⊢
      ring

theorem mat4_inverse_det_ne_zero (a B : Mat4) (h : mat4Mul a B = mat4Id) :
    mat4Det a ≠ 0 := by
  intro h0
  have hdet : mat4Det (mat4Mul a B) = mat4Det mat4Id := by rw [h]
  rw [mat4Det_mul, mat4Det_id, h0, zero_mul] at hdet
  exact zero_ne_one hdet

theorem UBO.get_set_same (u : UBO) (k : String) (v : Value) :
    UBO.get (UBO.set u k v) k = some v := by
  simp [UBO.get, UBO.set]

theorem UBO.get_set_ne (u : UBO) (k q : String) (v : Value) (h : q ≠ k) :
    UBO.get (UBO.set u k v) q = UBO.get u q := by
  simp [UBO.get, UBO.set, h]

/-! ## Claim theorems -/

/-- C7: setViewport(x, y, width, height) sets the viewport field to exactly
those four values and issues gl.viewport with them, and a subsequent
resetViewport with no intervening setViewport issues gl.viewport with the
same stored values. -/
theorem setViewport_stores_and_issues (s : RendererState) (x y width height : ℚ) :
    (Renderer.setViewport s x y width height).1.viewport =
        { x := x, y := y, width := width, height := height } ∧
    (Renderer.setViewport s x y width height).2 =
        [GLCmd.viewportCmd x y width height] ∧
    (Renderer.resetViewport (Renderer.setViewport s x y width height).1).2 =
        [GLCmd.viewportCmd x y width height] :=
  ⟨rfl, rfl, rfl⟩

/-- C8: resetStats zeroes every RendererStats counter and clears
current_shader and current_material while leaving current_vertex_buffer,
current_index_buffer and the viewport unchanged; setPerFrameUniforms ends by
calling resetStats, so it clears the shader/material binding cache and
preserves the vertex/index buffer binding cache. -/
theorem resetStats_clears_shader_material_cache (s : RendererState) (view proj : Mat4) :
    (Renderer.resetStats s).stats = RendererStats.zero ∧
    (Renderer.resetStats s).current_shader = none ∧
    (Renderer.resetStats s).current_material = none ∧
    (Renderer.resetStats s).current_vertex_buffer = s.current_vertex_buffer ∧
    (Renderer.resetStats s).current_index_buffer = s.current_index_buffer ∧
    (Renderer.resetStats s).viewport = s.viewport ∧
    (Renderer.setPerFrameUniforms s view proj).1.current_shader = none ∧
    (Renderer.setPerFrameUniforms s view proj).1.current_material = none ∧
    (Renderer.setPerFrameUniforms s view proj).1.stats = RendererStats.zero ∧
    (Renderer.setPerFrameUniforms s view proj).1.current_vertex_buffer =
        s.current_vertex_buffer ∧
    (Renderer.setPerFrameUniforms s view proj).1.current_index_buffer =
        s.current_index_buffer ∧
    (Renderer.setPerFrameUniforms s view proj).1.viewport = s.viewport :=
  ⟨rfl, rfl, rfl, rfl, rfl, rfl, rfl, rfl, rfl, rfl, rfl, rfl⟩

/-- Closed form of the binding phase at the top of Renderer.draw: every
cache ends up holding the call's argument (or is untouched when the argument
is absent), a cache hit keeps its counter and emits nothing, and a cache
miss increments its counter by one and emits the corresponding bind
command, in source order. -/
theorem drawBindPhase_eq (s : RendererState) (ib : Option IndexBuffer)
    (vb : VertexBuffer) (mat : Option Material) :
    Renderer.drawBindPhase s ib vb mat =
      ({ s with
         current_vertex_buffer := some vb
         current_index_buffer :=
           match ib with | some b => some b | none => s.current_index_buffer
         current_material :=
           match mat with | some m => some m | none => s.current_material
         current_shader :=
           match mat with | some m => some m.shader | none => s.current_shader
         stats :=
           { s.stats with
             shader_bind_count := s.stats.shader_bind_count +
               (match mat with
                | some m => if some m.shader = s.current_shader then 0 else 1
                | none => 0)
             material_bind_count := s.stats.material_bind_count +
               (match mat with
                | some m => if some m = s.current_material then 0 else 1
                | none => 0)
             vertex_buffer_bind_count := s.stats.vertex_buffer_bind_count +
               (if some vb = s.current_vertex_buffer then 0 else 1)
             index_buffer_bind_count := s.stats.index_buffer_bind_count +
               (match ib with
                | some b => if some b = s.current_index_buffer then 0 else 1
                | none => 0) } },
       (match mat with
        | some m =>
            if some m.shader = s.current_shader then [] else [GLCmd.useProgram m.shader]
        | none => [])
       ++ (match mat with
           | some m =>
               if some m = s.current_material then [] else [GLCmd.activateMaterial m.id]
           | none => [])
       ++ (if some vb = s.current_vertex_buffer then [] else [GLCmd.bindVertexBuffers vb.id])
       ++ (match ib with
           | some b =>
               if some b = s.current_index_buffer then [] else [GLCmd.bindIndexBuffer b.id]
           | none => [])) := by
  rcases mat with _ | m <;> rcases ib with _ | b <;>
    simp only [Renderer.drawBindPhase] <;> split_ifs <;> simp_all

/-- Closed form of the dispatch half of Renderer.draw, relative to the
binding phase: the caches and bind counters pass through unchanged, the
trace extends the binding-phase trace by the dispatched command, and the
draw counters and error are determined by the index buffer's element
size. -/
theorem draw_characterization (s : RendererState) (dm c o : ℚ)
    (ib : Option IndexBuffer) (vb : VertexBuffer) (mat : Option Material) :
    (Renderer.draw s dm c o ib vb mat).state.current_vertex_buffer =
        (Renderer.drawBindPhase s ib vb mat).1.current_vertex_buffer ∧
    (Renderer.draw s dm c o ib vb mat).state.current_index_buffer =
        (Renderer.drawBindPhase s ib vb mat).1.current_index_buffer ∧
    (Renderer.draw s dm c o ib vb mat).state.current_material =
        (Renderer.drawBindPhase s ib vb mat).1.current_material ∧
    (Renderer.draw s dm c o ib vb mat).state.current_shader =
        (Renderer.drawBindPhase s ib vb mat).1.current_shader ∧
    (Renderer.draw s dm c o ib vb mat).state.stats.shader_bind_count =
        (Renderer.drawBindPhase s ib vb mat).1.stats.shader_bind_count ∧
    (Renderer.draw s dm c o ib vb mat).state.stats.material_bind_count =
        (Renderer.drawBindPhase s ib vb mat).1.stats.material_bind_count ∧
    (Renderer.draw s dm c o ib vb mat).state.stats.vertex_buffer_bind_count =
        (Renderer.drawBindPhase s ib vb mat).1.stats.vertex_buffer_bind_count ∧
    (Renderer.draw s dm c o ib vb mat).state.stats.index_buffer_bind_count =
        (Renderer.drawBindPhase s ib vb mat).1.stats.index_buffer_bind_count ∧
    (Renderer.draw s dm c o ib vb mat).trace =
        (Renderer.drawBindPhase s ib vb mat).2 ++
        (match ib with
         | some b =>
             if b.bytesPerElement = 2 then [GLCmd.drawElementsCmd dm c glUnsignedShort o]
             else if b.bytesPerElement = 4 then [GLCmd.drawElementsCmd dm c glUnsignedInt o]
             else []
         | none => [GLCmd.drawArraysCmd dm o c]) ∧
    (Renderer.draw s dm c o ib vb mat).error =
        (match ib with
         | some b =>
             if b.bytesPerElement = 2 then none
             else if b.bytesPerElement = 4 then none
             else some "Unknown index buffer type"
         | none => none) ∧
    (Renderer.draw s dm c o ib vb mat).state.stats.draw_calls =
        (Renderer.drawBindPhase s ib vb mat).1.stats.draw_calls +
        (match ib with
         | some b =>
             if b.bytesPerElement = 2 then 1
             else if b.bytesPerElement = 4 then 1
             else 0
         | none => 1) ∧
    (Renderer.draw s dm c o ib vb mat).state.stats.index_draw_count =
        (Renderer.drawBindPhase s ib vb mat).1.stats.index_draw_count +
        (match ib with
         | some b =>
             if b.bytesPerElement = 2 then c
             else if b.bytesPerElement = 4 then c
             else 0
         | none => 0) ∧
    (Renderer.draw s dm c o ib vb mat).state.stats.vertex_draw_count =
        (Renderer.drawBindPhase s ib vb mat).1.stats.vertex_draw_count +
        (match ib with
         | some _ => 0
         | none => c) := by
  rcases ib with _ | b <;> simp only [Renderer.draw] <;> (try split_ifs) <;> simp_all

/-- C1: Renderer.draw issues no redundant GPU state change: a provided
material whose shader is already the current shader triggers no
shader.use() and leaves shader_bind_count unchanged; a provided material
equal to current_material triggers no activate and leaves
material_bind_count unchanged; a vertex buffer equal to
current_vertex_buffer triggers no bindBuffers and leaves
vertex_buffer_bind_count unchanged; and a provided index buffer equal to
current_index_buffer triggers no bind and leaves index_buffer_bind_count
unchanged. -/
theorem draw_skips_redundant_binds (s : RendererState) (dm c o : ℚ)
    (ib : Option IndexBuffer) (vb : VertexBuffer) (mat : Option Material) :
    (∀ m, mat = some m → some m.shader = s.current_shader →
       (∀ k, GLCmd.useProgram k ∉ (Renderer.draw s dm c o ib vb mat).trace) ∧
       (Renderer.draw s dm c o ib vb mat).state.stats.shader_bind_count =
         s.stats.shader_bind_count) ∧
    (∀ m, mat = some m → some m = s.current_material →
       (∀ k, GLCmd.activateMaterial k ∉ (Renderer.draw s dm c o ib vb mat).trace) ∧
       (Renderer.draw s dm c o ib vb mat).state.stats.material_bind_count =
         s.stats.material_bind_count) ∧
    (some vb = s.current_vertex_buffer →
       (∀ k, GLCmd.bindVertexBuffers k ∉ (Renderer.draw s dm c o ib vb mat).trace) ∧
       (Renderer.draw s dm c o ib vb mat).state.stats.vertex_buffer_bind_count =
         s.stats.vertex_buffer_bind_count) ∧
    (∀ b, ib = some b → some b = s.current_index_buffer →
       (∀ k, GLCmd.bindIndexBuffer k ∉ (Renderer.draw s dm c o ib vb mat).trace) ∧
       (Renderer.draw s dm c o ib vb mat).state.stats.index_buffer_bind_count =
         s.stats.index_buffer_bind_count) := by
  refine ⟨?_, ?_, ?_, ?_⟩
  · rintro m rfl hm
    obtain ⟨-, -, -, -, h5, -, -, -, h9, -, -, -, -⟩ :=
      draw_characterization s dm c o ib vb (some m)
    rw [drawBindPhase_eq] at h5 h9
    refine ⟨fun k => ?_, ?_⟩
    · rcases ib with _ | b <;> rw [h9] <;>
        simp [hm] <;> (try split_ifs) <;> simp
    · rw [h5]; simp [hm]
  · rintro m rfl hm
    obtain ⟨-, -, -, -, -, h6, -, -, h9, -, -, -, -⟩ :=
      draw_characterization s dm c o ib vb (some m)
    rw [drawBindPhase_eq] at h6 h9
    refine ⟨fun k => ?_, ?_⟩
    · rcases ib with _ | b <;> rw [h9] <;>
        simp [hm] <;> (try split_ifs) <;> simp
    · rw [h6]; simp [hm]
  · intro hv
    obtain ⟨-, -, -, -, -, -, h7, -, h9, -, -, -, -⟩ :=
      draw_characterization s dm c o ib vb mat
    rw [drawBindPhase_eq] at h7 h9
    refine ⟨fun k => ?_, ?_⟩
    · rcases ib with _ | b <;> rcases mat with _ | m <;> rw [h9] <;>
        simp [hv] <;> (try split_ifs) <;> simp
    · rw [h7]; simp [hv]
  · rintro b rfl hb
    obtain ⟨-, -, -, -, -, -, -, h8, h9, -, -, -, -⟩ :=
      draw_characterization s dm c o (some b) vb mat
    rw [drawBindPhase_eq] at h8 h9
    refine ⟨fun k => ?_, ?_⟩
    · rcases mat with _ | m <;> rw [h9] <;>
        simp [hb] <;> (try split_ifs) <;> simp
    · rw [h8]; simp [hb]

theorem draw_skips_redundant_binds_witness :
    (Renderer.draw stateWithBindings 4 3 0 (some ib16) vb1 (some mat1)).state.stats.shader_bind_count =
      stateWithBindings.stats.shader_bind_count :=
  ((draw_skips_redundant_binds stateWithBindings 4 3 0 (some ib16) vb1
      (some mat1)).1 mat1 rfl (by decide)).2

/-- C2: after a Renderer.draw call that returns normally, the tracked
binding state equals the call's arguments: current_vertex_buffer holds the
vertex buffer, current_index_buffer holds the index buffer when one was
passed, current_shader/current_material hold mat.shader/mat when a material
was passed, and the fields for omitted optional arguments are unchanged. -/
theorem draw_tracks_arguments (s : RendererState) (dm c o : ℚ)
    (ib : Option IndexBuffer) (vb : VertexBuffer) (mat : Option Material)
    (h : (Renderer.draw s dm c o ib vb mat).error = none) :
    (Renderer.draw s dm c o ib vb mat).state.current_vertex_buffer = some vb ∧
    (∀ b, ib = some b →
       (Renderer.draw s dm c o ib vb mat).state.current_index_buffer = some b) ∧
    (∀ m, mat = some m →
       (Renderer.draw s dm c o ib vb mat).state.current_shader = some m.shader ∧
       (Renderer.draw s dm c o ib vb mat).state.current_material = some m) ∧
    (ib = none →
       (Renderer.draw s dm c o ib vb mat).state.current_index_buffer =
         s.current_index_buffer) ∧
    (mat = none →
       (Renderer.draw s dm c o ib vb mat).state.current_shader = s.current_shader ∧
       (Renderer.draw s dm c o ib vb mat).state.current_material = s.current_material) := by
  obtain ⟨h1, h2, h3, h4, -, -, -, -, -, -, -, -, -⟩ :=
    draw_characterization s dm c o ib vb mat
  rw [drawBindPhase_eq] at h1 h2 h3 h4
  simp only [] at h1 h2 h3 h4
  refine ⟨by simpa using h1, ?_, ?_, ?_, ?_⟩
  · rintro b rfl
    simpa using h2
  · rintro m rfl
    exact ⟨by simpa using h4, by simpa using h3⟩
  · rintro rfl
    simpa using h2
  · rintro rfl
    exact ⟨by simpa using h4, by simpa using h3⟩

theorem draw_tracks_arguments_witness :
    (Renderer.draw initialState 4 3 0 (some ib16) vb1 (some mat1)).state.current_vertex_buffer =
      some vb1 :=
  (draw_tracks_arguments initialState 4 3 0 (some ib16) vb1 (some mat1) (by decide)).1

/-- C3: Renderer.draw dispatches exactly one GPU draw command per successful
call: drawElements with UNSIGNED_SHORT for 2-byte indices, drawElements
with UNSIGNED_INT for 4-byte indices, the error "Unknown index buffer type"
for any other indexed element size, and drawArrays(draw_mode, offset,
count) with no index buffer; a successful call adds exactly 1 to draw_calls
and adds count to index_draw_count (indexed) or vertex_draw_count
(arrays). -/
theorem draw_dispatches_once (s : RendererState) (dm c o : ℚ)
    (ib : Option IndexBuffer) (vb : VertexBuffer) (mat : Option Material) :
    (∀ b, ib = some b → b.bytesPerElement = 2 →
       (Renderer.draw s dm c o ib vb mat).error = none ∧
       (Renderer.draw s dm c o ib vb mat).trace.filter isDrawCmd =
         [GLCmd.drawElementsCmd dm c glUnsignedShort o] ∧
       (Renderer.draw s dm c o ib vb mat).state.stats.draw_calls =
         s.stats.draw_calls + 1 ∧
       (Renderer.draw s dm c o ib vb mat).state.stats.index_draw_count =
         s.stats.index_draw_count + c ∧
       (Renderer.draw s dm c o ib vb mat).state.stats.vertex_draw_count =
         s.stats.vertex_draw_count) ∧
    (∀ b, ib = some b → b.bytesPerElement = 4 →
       (Renderer.draw s dm c o ib vb mat).error = none ∧
       (Renderer.draw s dm c o ib vb mat).trace.filter isDrawCmd =
         [GLCmd.drawElementsCmd dm c glUnsignedInt o] ∧
       (Renderer.draw s dm c o ib vb mat).state.stats.draw_calls =
         s.stats.draw_calls + 1 ∧
       (Renderer.draw s dm c o ib vb mat).state.stats.index_draw_count =
         s.stats.index_draw_count + c ∧
       (Renderer.draw s dm c o ib vb mat).state.stats.vertex_draw_count =
         s.stats.vertex_draw_count) ∧
    (∀ b, ib = some b → b.bytesPerElement ≠ 2 → b.bytesPerElement ≠ 4 →
       (Renderer.draw s dm c o ib vb mat).error =
         some "Unknown index buffer type") ∧
    (ib = none →
       (Renderer.draw s dm c o ib vb mat).error = none ∧
       (Renderer.draw s dm c o ib vb mat).trace.filter isDrawCmd =
         [GLCmd.drawArraysCmd dm o c] ∧
       (Renderer.draw s dm c o ib vb mat).state.stats.draw_calls =
         s.stats.draw_calls + 1 ∧
       (Renderer.draw s dm c o ib vb mat).state.stats.vertex_draw_count =
         s.stats.vertex_draw_count + c ∧
       (Renderer.draw s dm c o ib vb mat).state.stats.index_draw_count =
         s.stats.index_draw_count) := by
  refine ⟨?_, ?_, ?_, ?_⟩
  · rintro b rfl h2
    obtain ⟨-, -, -, -, -, -, -, -, h9, h10, h11, h12, h13⟩ :=
      draw_characterization s dm c o (some b) vb mat
    rw [drawBindPhase_eq] at h9 h11 h12 h13
    refine ⟨by rw [h10]; simp [h2], ?_, by rw [h11]; simp [h2], by rw [h12]; simp [h2],
      by rw [h13]; simp⟩
    rw [h9]
    rcases mat with _ | m <;> simp [h2, isDrawCmd] <;> (try split_ifs) <;> simp [isDrawCmd]
  · rintro b rfl h4
    obtain ⟨-, -, -, -, -, -, -, -, h9, h10, h11, h12, h13⟩ :=
      draw_characterization s dm c o (some b) vb mat
    have h2 : b.bytesPerElement ≠ 2 := by omega
    rw [drawBindPhase_eq] at h9 h11 h12 h13
    refine ⟨by rw [h10]; simp [h2, h4], ?_, by rw [h11]; simp [h2, h4],
      by rw [h12]; simp [h2, h4], by rw [h13]; simp⟩
    rw [h9]
    rcases mat with _ | m <;> simp [h2, h4, isDrawCmd] <;> (try split_ifs) <;>
      simp [isDrawCmd]
  · rintro b rfl h2 h4
    obtain ⟨-, -, -, -, -, -, -, -, -, h10, -, -, -⟩ :=
      draw_characterization s dm c o (some b) vb mat
    rw [h10]; simp [h2, h4]
  · rintro rfl
    obtain ⟨-, -, -, -, -, -, -, -, h9, h10, h11, h12, h13⟩ :=
      draw_characterization s dm c o none vb mat
    rw [drawBindPhase_eq] at h9 h11 h12 h13
    refine ⟨by rw [h10], ?_, by rw [h11]; (try simp), by rw [h13]; (try simp),
      by rw [h12]; (try simp)⟩
    rw [h9]
    rcases mat with _ | m <;> simp [isDrawCmd] <;> (try split_ifs) <;> (try simp [isDrawCmd])

theorem draw_dispatches_once_witness :
    (Renderer.draw initialState 4 3 0 (some ib16) vb1 (some mat1)).trace.filter isDrawCmd =
      [GLCmd.drawElementsCmd 4 3 glUnsignedShort 0] :=
  ((draw_dispatches_once initialState 4 3 0 (some ib16) vb1 (some mat1)).1
    ib16 rfl (by decide)).2.1

/-- C10: when Renderer.draw throws "Unknown index buffer type", no GPU draw
command is issued and the three draw counters are unchanged, but the call
is not atomic: the binding caches hold the call's arguments and the bind
counters reflect the binds performed before the throw. -/
theorem draw_throw_not_atomic (s : RendererState) (dm c o : ℚ)
    (b : IndexBuffer) (vb : VertexBuffer) (mat : Option Material)
    (h2 : b.bytesPerElement ≠ 2) (h4 : b.bytesPerElement ≠ 4) :
    (Renderer.draw s dm c o (some b) vb mat).error =
      some "Unknown index buffer type" ∧
    (Renderer.draw s dm c o (some b) vb mat).trace.filter isDrawCmd = [] ∧
    (Renderer.draw s dm c o (some b) vb mat).state.stats.draw_calls =
      s.stats.draw_calls ∧
    (Renderer.draw s dm c o (some b) vb mat).state.stats.index_draw_count =
      s.stats.index_draw_count ∧
    (Renderer.draw s dm c o (some b) vb mat).state.stats.vertex_draw_count =
      s.stats.vertex_draw_count ∧
    (Renderer.draw s dm c o (some b) vb mat).state.current_vertex_buffer = some vb ∧
    (Renderer.draw s dm c o (some b) vb mat).state.current_index_buffer = some b ∧
    (∀ m, mat = some m →
       (Renderer.draw s dm c o (some b) vb mat).state.current_shader = some m.shader ∧
       (Renderer.draw s dm c o (some b) vb mat).state.current_material = some m) ∧
    (Renderer.draw s dm c o (some b) vb mat).state.stats.shader_bind_count =
      s.stats.shader_bind_count +
      (match mat with
       | some m => if some m.shader = s.current_shader then 0 else 1
       | none => 0) ∧
    (Renderer.draw s dm c o (some b) vb mat).state.stats.material_bind_count =
      s.stats.material_bind_count +
      (match mat with
       | some m => if some m = s.current_material then 0 else 1
       | none => 0) ∧
    (Renderer.draw s dm c o (some b) vb mat).state.stats.vertex_buffer_bind_count =
      s.stats.vertex_buffer_bind_count +
      (if some vb = s.current_vertex_buffer then 0 else 1) ∧
    (Renderer.draw s dm c o (some b) vb mat).state.stats.index_buffer_bind_count =
      s.stats.index_buffer_bind_count +
      (if some b = s.current_index_buffer then 0 else 1) := by
  obtain ⟨h1, hcib, hcm, hcs, h5, h6, h7, h8, h9, h10, h11, h12, h13⟩ :=
    draw_characterization s dm c o (some b) vb mat
  rw [drawBindPhase_eq] at h1 hcib hcm hcs h5 h6 h7 h8 h9 h11 h12 h13
  refine ⟨by rw [h10]; simp [h2, h4], ?_, by rw [h11]; simp [h2, h4],
    by rw [h12]; simp [h2, h4], by rw [h13]; simp, by simpa using h1,
    by simpa using hcib, ?_, by simpa using h5, by simpa using h6,
    by simpa using h7, by simpa using h8⟩
  · rw [h9]
    rcases mat with _ | m <;> simp [h2, h4, isDrawCmd] <;> (try split_ifs) <;>
      simp [isDrawCmd]
  · rintro m rfl
    exact ⟨by simpa using hcs, by simpa using hcm⟩

theorem draw_throw_not_atomic_witness :
    (Renderer.draw initialState 4 3 0 (some ib8) vb1 (some mat1)).error =
      some "Unknown index buffer type" :=
  (draw_throw_not_atomic initialState 4 3 0 ib8 vb1 (some mat1)
    (by decide) (by decide)).1

theorem mat3NormalFromMat4_of_det_ne (a : Mat4) (hd : mat4Det a ≠ 0) :
    ∃ B, mat4Invert a = some B ∧ mat4Mul a B = mat4Id ∧ mat4Mul B a = mat4Id ∧
      mat3NormalFromMat4 a = some (mat3OfMat4TransposedUpper B) := by
  obtain ⟨B, hB, h1, h2⟩ := mat4Invert_correct a hd
  exact ⟨B, hB, h1, h2, by rw [mat3NormalFromMat4_eq_invert, hB]; rfl⟩

theorem mat3NormalFromMat4_none_iff (a : Mat4) :
    mat3NormalFromMat4 a = none ↔
      ¬ ∃ B, mat4Mul a B = mat4Id ∧ mat4Mul B a = mat4Id := by
  constructor
  · rintro h ⟨B, h1, h2⟩
    have hd := mat4_inverse_det_ne_zero a B h1
    obtain ⟨C, hC, -, -⟩ := mat4Invert_correct a hd
    rw [mat3NormalFromMat4_eq_invert, hC] at h
    simp at h
  · intro h
    by_cases hd : mat4Det a = 0
    · simp [mat3NormalFromMat4, hd]
    · obtain ⟨B, -, h1, h2⟩ := mat4Invert_correct a hd
      exact absurd ⟨B, h1, h2⟩ h

/-- C5: for every invertible view matrix and every projection matrix,
setPerFrameUniforms stages view under "view", the inverse of view under
"view_inverse", proj under "projection" and proj * view under
"view_projection", and uploads the per-frame block to the GPU exactly
once. -/
theorem setPerFrameUniforms_stages (s : RendererState) (view proj : Mat4)
    (hd : mat4Det view ≠ 0) :
    (Renderer.setPerFrameUniforms s view proj).1.uboPerFrameBlock.get "view" =
        some (Value.m4 view) ∧
    (∃ B, (Renderer.setPerFrameUniforms s view proj).1.uboPerFrameBlock.get "view_inverse" =
        some (Value.m4 B) ∧ mat4Mul view B = mat4Id ∧ mat4Mul B view = mat4Id) ∧
    (Renderer.setPerFrameUniforms s view proj).1.uboPerFrameBlock.get "projection" =
        some (Value.m4 proj) ∧
    (Renderer.setPerFrameUniforms s view proj).1.uboPerFrameBlock.get "view_projection" =
        some (Value.m4 (mat4Mul proj view)) ∧
    (Renderer.setPerFrameUniforms s view proj).2 = [GLCmd.uploadPerFrame] := by
  obtain ⟨B, hB, h1, h2⟩ := mat4Invert_correct view hd
  refine ⟨?_, ⟨B, ?_, h1, h2⟩, ?_, ?_, rfl⟩ <;>
    simp [Renderer.setPerFrameUniforms, Renderer.resetStats, UBO.get, UBO.set, hB]

theorem setPerFrameUniforms_stages_witness :
    (Renderer.setPerFrameUniforms initialState mat4Id mat4Id).1.uboPerFrameBlock.get "view" =
      some (Value.m4 mat4Id) :=
  (setPerFrameUniforms_stages initialState mat4Id mat4Id
    (by norm_num [mat4Det, mat4Id])).1

/-- C9: setPerModelUniforms throws "Determinant could not be calculated for
normalview_matrix" exactly when mat3.normalFromMat4 returns null for the
model-view matrix, which happens exactly when view * model has no inverse;
in that case normal_view and mvp are not written and the per-model block is
not uploaded, although model and model_view have already been staged into
it. -/
theorem setPerModelUniforms_throws_iff (s : RendererState) (model view proj : Mat4) :
    ((Renderer.setPerModelUniforms s model view proj).2.2 =
        some "Determinant could not be calculated for normalview_matrix" ↔
      mat3NormalFromMat4 (mat4Mul view model) = none) ∧
    (mat3NormalFromMat4 (mat4Mul view model) = none ↔
      ¬ ∃ B, mat4Mul (mat4Mul view model) B = mat4Id ∧
        mat4Mul B (mat4Mul view model) = mat4Id) ∧
    (mat3NormalFromMat4 (mat4Mul view model) = none →
      (Renderer.setPerModelUniforms s model view proj).1.uboPerModelBlock.get "model" =
          some (Value.m4 model) ∧
      (Renderer.setPerModelUniforms s model view proj).1.uboPerModelBlock.get "model_view" =
          some (Value.m4 (mat4Mul view model)) ∧
      (Renderer.setPerModelUniforms s model view proj).1.uboPerModelBlock.get "normal_view" =
          s.uboPerModelBlock.get "normal_view" ∧
      (Renderer.setPerModelUniforms s model view proj).1.uboPerModelBlock.get "mvp" =
          s.uboPerModelBlock.get "mvp" ∧
      (Renderer.setPerModelUniforms s model view proj).2.1 = []) := by
  refine ⟨?_, mat3NormalFromMat4_none_iff _, ?_⟩
  · cases hn : mat3NormalFromMat4 (mat4Mul view model) <;>
      simp [Renderer.setPerModelUniforms, hn]
  · intro hn
    simp only [Renderer.setPerModelUniforms, hn]
    refine ⟨?_, ?_, ?_, ?_, ?_⟩ <;> simp [UBO.get, UBO.set]

theorem setPerModelUniforms_throws_iff_witness :
    (Renderer.setPerModelUniforms initialState mat4Zero mat4Id mat4Id).1.uboPerModelBlock.get "model" =
      some (Value.m4 mat4Zero) :=
  ((setPerModelUniforms_throws_iff initialState mat4Zero mat4Id mat4Id).2.2
    (by norm_num [mat3NormalFromMat4, mat4Det, mat4Mul, mat4Zero, mat4Id])).1

theorem mat3Inverse_correct (a : Mat3) (hd : mat3Det a ≠ 0) :
    ∃ B, mat3Inverse a = some B ∧ mat3Mul a B = mat3Id ∧ mat3Mul B a = mat3Id := by
  unfold mat3Inverse
  rw [if_neg hd]
  refine ⟨_, rfl, ?_, ?_⟩ <;>
  · ext <;>
    · simp only [mat3Mul, mat3Id]
      field_simp
      simp only [mat3Det] at hd ⊢
      ring

/-- C4 counterexample: with model = I, view = cexView, proj = I, the call
returns normally and stages a normal_view value, but that value is not the
inverse-transpose of the upper 3x3 of the model-view matrix: the code
computes the upper 3x3 of the inverse-transpose of the full 4x4 matrix,
which differs whenever the bottom row is not (0, 0, 0, 1). -/
theorem setPerModelUniforms_normal_counterexample :
    (Renderer.setPerModelUniforms initialState mat4Id cexView mat4Id).2.2 = none ∧
    (normalMatrixClaimed (mat4Mul cexView mat4Id)).isSome = true ∧
    (Renderer.setPerModelUniforms initialState mat4Id cexView mat4Id).1.uboPerModelBlock.get "normal_view" ≠
      (normalMatrixClaimed (mat4Mul cexView mat4Id)).map Value.m3 := by
  norm_num [Renderer.setPerModelUniforms, mat4Mul, cexView, mat4Id,
    mat3NormalFromMat4, mat4Det, normalMatrixClaimed, mat3Inverse, mat3Det,
    mat4Upper3, mat3Transpose, UBO.get, UBO.set] <;> simp <;> norm_num

/-- C4 (amended): for every model, view and projection matrix such that the
model-view matrix view * model has nonzero determinant, setPerModelUniforms
returns normally and stages model under "model", view * model under
"model_view", the upper 3x3 of the transpose of the inverse of view * model
under "normal_view" (the claim's inverse-transpose of the upper 3x3 agrees
with this only when the bottom row of view * model is (0, 0, 0, 1)), and
proj * (view * model) under "mvp", then uploads the per-model block exactly
once. -/
theorem setPerModelUniforms_stages (s : RendererState) (model view proj : Mat4)
    (hd : mat4Det (mat4Mul view model) ≠ 0) :
    (Renderer.setPerModelUniforms s model view proj).2.2 = none ∧
    (Renderer.setPerModelUniforms s model view proj).1.uboPerModelBlock.get "model" =
        some (Value.m4 model) ∧
    (Renderer.setPerModelUniforms s model view proj).1.uboPerModelBlock.get "model_view" =
        some (Value.m4 (mat4Mul view model)) ∧
    (∃ B, mat4Mul (mat4Mul view model) B = mat4Id ∧
       mat4Mul B (mat4Mul view model) = mat4Id ∧
       (Renderer.setPerModelUniforms s model view proj).1.uboPerModelBlock.get "normal_view" =
         some (Value.m3 (mat3OfMat4TransposedUpper B))) ∧
    (Renderer.setPerModelUniforms s model view proj).1.uboPerModelBlock.get "mvp" =
        some (Value.m4 (mat4Mul proj (mat4Mul view model))) ∧
    (Renderer.setPerModelUniforms s model view proj).2.1 = [GLCmd.uploadPerModel] := by
  obtain ⟨B, hB, h1, h2, hn⟩ := mat3NormalFromMat4_of_det_ne (mat4Mul view model) hd
  refine ⟨?_, ?_, ?_, ⟨B, h1, h2, ?_⟩, ?_, ?_⟩ <;>
    simp [Renderer.setPerModelUniforms, hn, UBO.get, UBO.set]

theorem setPerModelUniforms_stages_witness :
    (Renderer.setPerModelUniforms initialState mat4Id mat4Id mat4Id).1.uboPerModelBlock.get "model" =
      some (Value.m4 mat4Id) :=
  (setPerModelUniforms_stages initialState mat4Id mat4Id mat4Id
    (by norm_num [mat4Det, mat4Mul, mat4Id])).2.1

/-- C6: after the Renderer constructor, GetShader returns for every entry of
ShaderSources a shader built from that entry's vert and frag sources,
constructed via the entry's subclass when one is defined and via the base
Shader class otherwise; the default 2D and cube textures are created; and
the uniform buffer blocks ubo_per_frame (binding point 0) and ubo_per_model
(binding point 1) are created and bound to every constructed shader. -/
theorem construct_initializes (src : ShaderSource) (h : src ∈ ShaderSources) :
    Renderer.GetShader Renderer.construct src.name = some (mkShader src) ∧
    CtorEvent.createTexture2D ∈ Renderer.construct.trace ∧
    CtorEvent.createCubeTexture ∈ Renderer.construct.trace ∧
    CtorEvent.createUBO "ubo_per_frame" ∈ Renderer.construct.trace ∧
    CtorEvent.createUBO "ubo_per_model" ∈ Renderer.construct.trace ∧
    ∀ p ∈ Renderer.construct.shaders,
      CtorEvent.bindUBO "ubo_per_frame" 0 p.2 ∈ Renderer.construct.trace ∧
      CtorEvent.bindUBO "ubo_per_model" 1 p.2 ∈ Renderer.construct.trace := by
  fin_cases h <;> decide

theorem construct_initializes_witness :
    Renderer.GetShader Renderer.construct "PBRShader" =
      some { cls := "PBRShader", vert := "standardVert", frag := "pbrFrag" } := by
  have h := (construct_initializes
    { name := "PBRShader", vert := "standardVert", frag := "pbrFrag"
      subclass := some "PBRShader" } (by decide)).1
  simpa [mkShader] using h
